import Mathlib

/-!
Verification development for the Shopify storefront discovery engine
(`shopify_storefront_mcp_server`): a shallow embedding of the platform
classifier, host canonicalizer, token-candidate extractor, token validator,
capability ranker and query-execution gateway, together with theorems about
the behaviours the design document ascribes to them.

Strings are modelled as `List Char` (Python `str` values over their code
points).  Each regular expression of the source is compiled by hand into an
executable matcher; every such matcher is deterministic because in each
pattern every greedy repetition ranges over a character class that excludes
the first character of whatever must follow it, so backtracking can never
produce a different match than the maximal-munch one.
-/

/-- Python strings are modelled as lists of characters. -/
abbrev Str := List Char

/-- Shorthand turning a Lean string literal into the `List Char` model. -/
def lit (s : String) : Str := s.toList

/-- Double-quote character. -/
def dqc : Char := Char.ofNat 34

/-- Single-quote character. -/
def sqc : Char := Char.ofNat 39

/-- Backslash character. -/
def bsl : Char := Char.ofNat 92

/-- The non-breaking hyphen U+2011 that the source spells inside its
header-prefix tuple (bytes `e2 80 91` in both copies of the code). -/
def nbHyphen : Char := Char.ofNat 0x2011

/-- ASCII lower-casing of one character, the embedding of `str.lower` for the
ASCII range handled by this code base. -/
def asciiLower (c : Char) : Char :=
  if 65 ≤ c.toNat ∧ c.toNat ≤ 90 then Char.ofNat (c.toNat + 32) else c

/-- Embedding of Python `str.lower`. -/
def pyLower (s : Str) : Str := s.map asciiLower

theorem toNat_charOfNat_of_valid {n : Nat} (hv : n.isValidChar) :
    (Char.ofNat n).toNat = n := by
  rw [Char.ofNat, dif_pos hv]
  rfl

theorem asciiLower_idem (c : Char) : asciiLower (asciiLower c) = asciiLower c := by
  unfold asciiLower
  by_cases h : 65 ≤ c.toNat ∧ c.toNat ≤ 90
  · rw [if_pos h]
    have hv : (c.toNat + 32).isValidChar := by
      left
      omega
    have ht : (Char.ofNat (c.toNat + 32)).toNat = c.toNat + 32 :=
      toNat_charOfNat_of_valid hv
    rw [if_neg]
    rw [ht]
    omega
  · rw [if_neg h, if_neg h]

theorem pyLower_idem (s : Str) : pyLower (pyLower s) = pyLower s := by
  unfold pyLower
  rw [List.map_map]
  apply List.map_congr_left
  intro c _
  exact asciiLower_idem c

theorem pyLower_append (a b : Str) : pyLower (a ++ b) = pyLower a ++ pyLower b := by
  unfold pyLower
  exact List.map_append asciiLower a b

/-- Python substring containment `needle in hay`. -/
def strIn (needle : Str) : Str → Bool
  | [] => needle == []
  | c :: rest => needle.isPrefixOf (c :: rest) || strIn needle rest

/-- Word characters of the regex `\b` boundary and `\w` class, restricted to
the ASCII range the code manipulates. -/
def isWordChar (c : Char) : Bool := c.isAlphanum || c == '_'

/-- Hexadecimal digits of the token patterns `[a-f0-9]` under `re.I`. -/
def isHexChar (c : Char) : Bool :=
  ('0' ≤ c && c ≤ '9') || ('a' ≤ c && c ≤ 'f') || ('A' ≤ c && c ≤ 'F')

/-- ASCII letters and digits, the class `[a-zA-Z0-9]`. -/
def isAlnumChar (c : Char) : Bool := c.isAlphanum

/-- The class `[a-zA-Z0-9-]` of the myshopify domain patterns. -/
def isDomainChar (c : Char) : Bool := c.isAlphanum || c == '-'

/-- The class `[a-zA-Z0-9_-]` of the JWT token pattern. -/
def isJwtChar (c : Char) : Bool := c.isAlphanum || c == '_' || c == '-'

/-- The class `[A-Za-z0-9_]` of the config-object patterns. -/
def isNameChar (c : Char) : Bool := c.isAlphanum || c == '_'

/-- The class `[\w-]` of the loose myshopify scan. -/
def isLooseChar (c : Char) : Bool := c.isAlphanum || c == '_' || c == '-'

/-- Python regex whitespace `\s` (ASCII portion). -/
def isPySpace (c : Char) : Bool :=
  c == ' ' || c == Char.ofNat 9 || c == Char.ofNat 10 || c == Char.ofNat 13
    || c == Char.ofNat 11 || c == Char.ofNat 12

/-- Case-sensitive literal strip: if `p` is a prefix of `s`, return the rest. -/
def stripLit (p s : Str) : Option Str :=
  match p, s with
  | [], s => some s
  | _ :: _, [] => none
  | a :: ps, c :: cs => if c = a then stripLit ps cs else none

/-- Case-insensitive literal strip (`re.I`): if `s` starts with `p` up to
ASCII case, return the matched text together with the rest. -/
def stripLitCI (p s : Str) : Option (Str × Str) :=
  match p, s with
  | [], s => some ([], s)
  | _ :: _, [] => none
  | a :: ps, c :: cs =>
    if asciiLower c = asciiLower a then
      (stripLitCI ps cs).map (fun r => (c :: r.1, r.2))
    else none

/-!
## Host canonicalizer (`_canonical_host`, discovery.py lines 64-79)

The three `MYSHOPIFY_PATTERNS`, the `Shopify.shop` assignment pattern and the
loose `([\w-]+\.myshopify\.com)` scan, each compiled into a deterministic
matcher.  `search` scans start positions from the left and returns the first
match, exactly the semantics of `re.search`.
-/

/-- Attempt pattern 1, `["'](https?://)?([a-zA-Z0-9][a-zA-Z0-9-]*\.myshopify\.com)["'/]`
(`re.I`), at the current position; returns capture group 2. -/
def myshopP1At (s : Str) : Option Str :=
  match s with
  | [] => none
  | q :: r0 =>
    if q = dqc ∨ q = sqc then
      let r1 :=
        match stripLitCI (lit "https://") r0 with
        | some pr => pr.2
        | none =>
          match stripLitCI (lit "http://") r0 with
          | some pr => pr.2
          | none => r0
      match r1 with
      | [] => none
      | c :: r2 =>
        if isAlnumChar c then
          let run := r2.takeWhile isDomainChar
          let r3 := r2.dropWhile isDomainChar
          match stripLitCI (lit ".myshopify.com") r3 with
          | some pr =>
            match pr.2 with
            | [] => none
            | t :: _ =>
              if t = dqc ∨ t = sqc ∨ t = '/' then some (c :: run ++ pr.1) else none
          | none => none
        else none
    else none

/-- Leftmost search with pattern 1 of `MYSHOPIFY_PATTERNS`. -/
def myshopP1Search : Str → Option Str
  | [] => none
  | c :: rest =>
    match myshopP1At (c :: rest) with
    | some g => some g
    | none => myshopP1Search rest

/-- Attempt pattern 2, `\b(https?://)?([a-zA-Z0-9][a-zA-Z0-9-]*\.myshopify\.com)\b`
(`re.I`), at the current position.  `prevOk` says the preceding character (if
any) is a non-word character, which is what `\b` requires since the first
matched character is always a word character. -/
def myshopP2At (prevOk : Bool) (s : Str) : Option Str :=
  if prevOk then
    let r1 :=
      match stripLitCI (lit "https://") s with
      | some pr => pr.2
      | none =>
        match stripLitCI (lit "http://") s with
        | some pr => pr.2
        | none => s
    match r1 with
    | [] => none
    | c :: r2 =>
      if isAlnumChar c then
        let run := r2.takeWhile isDomainChar
        let r3 := r2.dropWhile isDomainChar
        match stripLitCI (lit ".myshopify.com") r3 with
        | some pr =>
          match pr.2 with
          | [] => some (c :: run ++ pr.1)
          | t :: _ => if isWordChar t then none else some (c :: run ++ pr.1)
        | none => none
      else none
  else none

/-- Leftmost search with pattern 2 of `MYSHOPIFY_PATTERNS`; `prev` is the
character preceding the current position. -/
def myshopP2Search (prev : Option Char) : Str → Option Str
  | [] => none
  | c :: rest =>
    match myshopP2At (prev.all (fun p => !isWordChar p)) (c :: rest) with
    | some g => some g
    | none => myshopP2Search (some c) rest

/-- Attempt pattern 3, `["']myshopify_domain["']\s*:\s*["']([^"']+)["']`
(`re.I`), at the current position; returns capture group 1. -/
def myshopP3At (s : Str) : Option Str :=
  match s with
  | [] => none
  | q :: r0 =>
    if q = dqc ∨ q = sqc then
      match stripLitCI (lit "myshopify_domain") r0 with
      | some pr =>
        match pr.2 with
        | [] => none
        | q2 :: r1 =>
          if q2 = dqc ∨ q2 = sqc then
            match (r1.dropWhile isPySpace) with
            | [] => none
            | c0 :: r2 =>
              if c0 = ':' then
                match (r2.dropWhile isPySpace) with
                | [] => none
                | q3 :: r3 =>
                  if q3 = dqc ∨ q3 = sqc then
                    let body := r3.takeWhile (fun c => ¬(c = dqc ∨ c = sqc))
                    let r4 := r3.dropWhile (fun c => ¬(c = dqc ∨ c = sqc))
                    if body ≠ [] ∧ r4 ≠ [] then some body else none
                  else none
              else none
          else none
      | none => none
    else none

/-- Leftmost search with pattern 3 of `MYSHOPIFY_PATTERNS`. -/
def myshopP3Search : Str → Option Str
  | [] => none
  | c :: rest =>
    match myshopP3At (c :: rest) with
    | some g => some g
    | none => myshopP3Search rest

/-- Attempt `Shopify\.shop\s*=\s*["']([^"']+)["']` (case-sensitive) at the
current position; returns capture group 1. -/
def shopAssignAt (s : Str) : Option Str :=
  match stripLit (lit "Shopify.shop") s with
  | none => none
  | some r1 =>
    match (r1.dropWhile isPySpace) with
    | [] => none
    | c0 :: r2 =>
      if c0 = '=' then
        match (r2.dropWhile isPySpace) with
        | [] => none
        | q :: r3 =>
          if q = dqc ∨ q = sqc then
            let body := r3.takeWhile (fun c => ¬(c = dqc ∨ c = sqc))
            let r4 := r3.dropWhile (fun c => ¬(c = dqc ∨ c = sqc))
            if body ≠ [] ∧ r4 ≠ [] then some body else none
          else none
      else none

/-- Leftmost search for the `Shopify.shop` assignment. -/
def shopAssignSearch : Str → Option Str
  | [] => none
  | c :: rest =>
    match shopAssignAt (c :: rest) with
    | some g => some g
    | none => shopAssignSearch rest

/-- Attempt the loose pattern `([\w-]+\.myshopify\.com)` (`re.I`) at the
current position. -/
def looseMyshopAt (s : Str) : Option Str :=
  let run := s.takeWhile isLooseChar
  let r1 := s.dropWhile isLooseChar
  if run ≠ [] then
    match stripLitCI (lit ".myshopify.com") r1 with
    | some pr => some (run ++ pr.1)
    | none => none
  else none

/-- Leftmost search for the loose myshopify pattern. -/
def looseMyshopSearch : Str → Option Str
  | [] => none
  | c :: rest =>
    match looseMyshopAt (c :: rest) with
    | some g => some g
    | none => looseMyshopSearch rest

/-- Embedding of `_canonical_host(html, fallback)` (discovery.py lines 64-79).
For the first two `MYSHOPIFY_PATTERNS` the code takes `m.group(2)` (the
domain), for the third `m.group(1)`; then the `Shopify.shop` assignment with
the `.myshopify.com` suffix appended when the substring is absent; then the
loose scan; then the lower-cased fallback host. -/
def canonicalHost (html fallback : Str) : Str :=
  match myshopP1Search html with
  | some d => pyLower d
  | none =>
    match myshopP2Search none html with
    | some d => pyLower d
    | none =>
      match myshopP3Search html with
      | some d => pyLower d
      | none =>
        match shopAssignSearch html with
        | some shop =>
          if strIn (lit ".myshopify.com") shop then pyLower shop
          else pyLower (shop ++ lit ".myshopify.com")
        | none =>
          match looseMyshopSearch html with
          | some d => pyLower d
          | none => pyLower fallback

/-- The canonicalizer as the specification words it: a first-match-wins
priority chain — structured myshopify patterns, then the `Shopify.shop`
assignment normalized by appending the reserved suffix when absent, then the
loose suffix scan, then the caller-supplied fallback — with the chosen string
lower-cased. -/
def canonicalHostSpec (html fallback : Str) : Str :=
  let structured :=
    (myshopP1Search html).orElse fun _ =>
      (myshopP2Search none html).orElse fun _ => myshopP3Search html
  pyLower <|
    match structured with
    | some d => d
    | none =>
      match shopAssignSearch html with
      | some shop =>
        if strIn (lit ".myshopify.com") shop then shop
        else shop ++ lit ".myshopify.com"
      | none =>
        match looseMyshopSearch html with
        | some d => d
        | none => fallback

/-!
## Platform classifier (`_is_shopify`, discovery.py lines 58-61)

`HDR_PREFIXES` is embedded byte-for-byte: the hyphens in the source are the
non-breaking hyphen U+2011 (`e2 80 91`), not ASCII `-`.  The four
`HTML_MARKERS` regexes are compiled into existence checks.
-/

/-- The tuple `HDR_PREFIXES` (discovery.py lines 19-24), with the U+2011
non-breaking hyphens that appear in the source text. -/
def HDR_PREFIXES : List Str :=
  [ lit "x" ++ [nbHyphen] ++ lit "shopify"
  , lit "x" ++ [nbHyphen] ++ lit "shop"
  , lit "x" ++ [nbHyphen] ++ lit "shardid"
  , lit "x" ++ [nbHyphen] ++ lit "sorting-hat" ]

/-- Existence check for `cdn\.shopify(?:cdn)?\.net|cdn\.shopify\.com` (`re.I`). -/
def markerCdn (html : Str) : Bool :=
  strIn (lit "cdn.shopify.net") (pyLower html)
    || strIn (lit "cdn.shopifycdn.net") (pyLower html)
    || strIn (lit "cdn.shopify.com") (pyLower html)

/-- Existence check for `class=["'][^"']*shopify-section` (`re.I`): an
occurrence of `class=` followed by a quote and then `shopify-section` with no
intervening quote character. -/
def markerSectionFrom (s : Str) : Bool :=
  match stripLitCI (lit "class=") s with
  | some pr =>
    match pr.2 with
    | [] => false
    | q :: r1 =>
      (q = dqc || q = sqc)
        && strIn (lit "shopify-section")
            (pyLower (r1.takeWhile (fun c => ¬(c = dqc ∨ c = sqc))))
  | none => false

/-- Leftmost-scan wrapper for `markerSectionFrom`. -/
def markerSection : Str → Bool
  | [] => false
  | c :: rest => markerSectionFrom (c :: rest) || markerSection rest

/-- Existence check for `window\.Shopify|Shopify\.theme` (`re.I`). -/
def markerGlobal (html : Str) : Bool :=
  strIn (lit "window.shopify") (pyLower html) || strIn (lit "shopify.theme") (pyLower html)

/-- Existence check for `[a-zA-Z0-9-]+\.myshopify\.com` (`re.I`): an
occurrence of the suffix immediately preceded by a class character. -/
def markerMyshop : Str → Bool
  | [] => false
  | c :: rest =>
    (isDomainChar c && ((stripLitCI (lit ".myshopify.com") rest).isSome))
      || markerMyshop rest

/-- `any(rx.search(html) for rx in HTML_MARKERS)`. -/
def htmlMarkerHit (html : Str) : Bool :=
  markerCdn html || markerSection html || markerGlobal html || markerMyshop html

/-- Embedding of `_is_shopify(headers, html)` (discovery.py lines 58-61);
`headers` is the list of response header names. -/
def isShopify (headers : List Str) (html : Str) : Bool :=
  headers.any (fun h => HDR_PREFIXES.any (fun p => p.isPrefixOf (pyLower h)))
    || htmlMarkerHit html

/-!
## Token candidate extractor (`_token_candidates`, discovery.py lines 82-115)

`TOKEN_PATTERNS` are scanned with `finditer` semantics: start positions are
tried left to right and scanning resumes at the end of each match.  For each
match the surrounding ±100-character window of the lower-cased text is tested
against the context vocabulary and against the five client-initialization
patterns.
-/

/-- One regex match: the span of the whole match (`m.start()`, `m.end()`) and
the text of capture group 1. -/
structure TokenMatch where
  start : Nat
  stop : Nat
  group : Str
deriving DecidableEq

/-- Trailing `\b` after a word character: the remainder starts with a
non-word character or is empty. -/
def boundaryAfter (s : Str) : Bool :=
  match s with
  | [] => true
  | c :: _ => !isWordChar c

/-- Leading `\b` before a word character: there is no previous character or
it is a non-word character. -/
def boundaryBefore (prev : Option Char) : Bool :=
  prev.all (fun p => !isWordChar p)

/-- `finditer` for `\b([a-f0-9]{32})\b` (`re.I`): `prev` is the character
before the current position, `pos` the current absolute position.  The
`fuel` argument (always instantiated with the text length, an upper bound
on the number of scanning steps) makes the recursion structural, so that
the function reduces definitionally on concrete inputs. -/
def scanHex32 (fuel : Nat) (prev : Option Char) (pos : Nat) (s : Str) : List TokenMatch :=
  match fuel, s with
  | 0, _ => []
  | _, [] => []
  | fuel + 1, c :: rest =>
    let cand := (c :: rest).take 32
    if boundaryBefore prev && (cand.length == 32) && cand.all isHexChar
        && boundaryAfter ((c :: rest).drop 32) then
      ⟨pos, pos + 32, cand⟩ ::
        scanHex32 fuel (some (cand.getLastD c)) (pos + 32) ((c :: rest).drop 32)
    else
      scanHex32 fuel (some c) (pos + 1) rest

/-- `finditer` for `\b([a-f0-9]{24,64})\b` (`re.I`).  At a start position the
greedy `{24,64}` can only succeed on the full maximal hexadecimal run (any
shorter length leaves a hexadecimal word character adjacent to the trailing
`\b`), so the run length must lie in `[24, 64]` with word boundaries on both
sides. -/
def scanHexVar (fuel : Nat) (prev : Option Char) (pos : Nat) (s : Str) : List TokenMatch :=
  match fuel, s with
  | 0, _ => []
  | _, [] => []
  | fuel + 1, c :: rest =>
    let run := (c :: rest).takeWhile isHexChar
    if boundaryBefore prev && (24 ≤ run.length && run.length ≤ 64)
        && boundaryAfter ((c :: rest).drop run.length) then
      ⟨pos, pos + run.length, run⟩ ::
        scanHexVar fuel (some (run.getLastD c)) (pos + run.length)
          ((c :: rest).drop run.length)
    else
      scanHexVar fuel (some c) (pos + 1) rest

/-- Attempt the JWT pattern
`\"(eyJ[a-zA-Z0-9_-]{10,}\.eyJ[a-zA-Z0-9_-]{10,}\.[a-zA-Z0-9_-]{10,})\"`
(`re.I`) at the current position; returns capture group 1 (the whole match is
two characters longer, for the quotes). -/
def jwtAt (s : Str) : Option Str :=
  match s with
  | [] => none
  | q :: r0 =>
    if q = dqc then
      match stripLitCI (lit "eyJ") r0 with
      | none => none
      | some pr1 =>
        let b1 := pr1.2.takeWhile isJwtChar
        let r1 := pr1.2.dropWhile isJwtChar
        if 10 ≤ b1.length then
          match r1 with
          | '.' :: r2 =>
            match stripLitCI (lit "eyJ") r2 with
            | none => none
            | some pr2 =>
              let b2 := pr2.2.takeWhile isJwtChar
              let r3 := pr2.2.dropWhile isJwtChar
              if 10 ≤ b2.length then
                match r3 with
                | '.' :: r4 =>
                  let b3 := r4.takeWhile isJwtChar
                  let r5 := r4.dropWhile isJwtChar
                  if 10 ≤ b3.length then
                    match r5 with
                    | q2 :: _ =>
                      if q2 = dqc then
                        some (pr1.1 ++ b1 ++ '.' :: (pr2.1 ++ b2 ++ '.' :: b3))
                      else none
                    | [] => none
                  else none
                | _ => none
              else none
          | _ => none
        else none
    else none

/-- `finditer` for the JWT pattern; a match's whole span is the group plus
the two quotes, and scanning resumes after the closing quote. -/
def scanJwt (fuel : Nat) (pos : Nat) (s : Str) : List TokenMatch :=
  match fuel, s with
  | 0, _ => []
  | _, [] => []
  | fuel + 1, c :: rest =>
    match jwtAt (c :: rest) with
    | some g =>
      ⟨pos, pos + (g.length + 2), g⟩ ::
        scanJwt fuel (pos + (g.length + 2)) ((c :: rest).drop (g.length + 2))
    | none => scanJwt fuel (pos + 1) rest

/-- The matches of the three `TOKEN_PATTERNS`, in the order the source's
outer loop visits them. -/
def tokenMatches (text : Str) : List TokenMatch :=
  scanHex32 text.length none 0 text ++ scanHexVar text.length none 0 text
    ++ scanJwt text.length 0 text

/-- The `token_contexts` vocabulary (discovery.py lines 84-98), in source
order. -/
def tokenContexts : List Str :=
  [ lit "storefront", lit "token", lit "access_token", lit "accesstoken"
  , lit "apikey", lit "api_key", lit "shopify", lit "graphql"
  , lit "storefrontaccesstoken", lit "x-shopify", lit "publicaccesstoken"
  , lit "client_id", lit "clientid" ]

/-- The window `lower[max(0, m.start() - 100) : m.end() + 100]` around a
match. -/
def windowOf (lower : Str) (m : TokenMatch) : Str :=
  (lower.drop (m.start - 100)).take ((m.stop + 100) - (m.start - 100))

/-- `any(ctx in window for ctx in token_contexts)`. -/
def contextHit (w : Str) : Bool := tokenContexts.any (fun c => strIn c w)

/-- Existence search for an init pattern of the shape
`LIT({[^}]*}` — a literal ending in `({`, then any characters other than `}`,
then `}`; it matches somewhere iff the literal occurs with a `}` after it. -/
def searchBraced (lead : Str) : Str → Bool
  | [] => false
  | c :: rest =>
    (lead.isPrefixOf (c :: rest) && ((c :: rest).drop lead.length).contains '}')
      || searchBraced lead rest

/-- Helper for the `fetch\([^)]*\"/api/[^\"]*\"` pattern: after `"` the text
must continue `/api/` and a later `"` must exist. -/
def fetchApiAfterQuote (s : Str) : Bool :=
  (lit "/api/").isPrefixOf s && (s.drop 5).contains dqc

/-- Helper: scan the region after `fetch(` for a `"` that occurs before any
`)` and satisfies `fetchApiAfterQuote`. -/
def fetchApiInner : Str → Bool
  | [] => false
  | c :: rest =>
    if c = ')' then false
    else if c = dqc then fetchApiAfterQuote rest || fetchApiInner rest
    else fetchApiInner rest

/-- Existence search for `fetch\([^)]*\"/api/[^\"]*\"`. -/
def searchFetchApi : Str → Bool
  | [] => false
  | c :: rest =>
    ((lit "fetch(").isPrefixOf (c :: rest) && fetchApiInner ((c :: rest).drop 6))
      || searchFetchApi rest

/-- The per-init-pattern emissions of the source's inner
`for init in init_patterns` loop: the group is appended once for every init
pattern that matches the window.  The first four patterns contain upper-case
letters and are searched case-sensitively in the lower-cased window, the
fifth is all lower-case. -/
def initEmits (w g : Str) : List Str :=
  (if searchBraced (lit "ShopifyBuy.buildClient(\x7b") w then [g] else [])
    ++ (if searchBraced (lit "createClient(\x7b") w then [g] else [])
    ++ (if searchBraced (lit "Shopify.loadFeatures(\x7b") w then [g] else [])
    ++ (if searchBraced (lit "new Client(\x7b") w then [g] else [])
    ++ (if searchFetchApi w then [g] else [])

/-- Whether any init pattern matches the window. -/
def initHit (w : Str) : Bool :=
  searchBraced (lit "ShopifyBuy.buildClient(\x7b") w
    || searchBraced (lit "createClient(\x7b") w
    || searchBraced (lit "Shopify.loadFeatures(\x7b") w
    || searchBraced (lit "new Client(\x7b") w
    || searchFetchApi w

/-- What one match contributes to the candidate list: the group if the
window holds a context keyword, then one copy per matching init pattern. -/
def candidateEmits (lower : Str) (m : TokenMatch) : List Str :=
  (if contextHit (windowOf lower m) then [m.group] else [])
    ++ initEmits (windowOf lower m) m.group

/-- Embedding of `_token_candidates(text)` (discovery.py lines 82-115). -/
def tokenCandidates (text : Str) : List Str :=
  (tokenMatches text).flatMap (candidateEmits (pyLower text))

/-!
## JSON values and `json.dumps`

A minimal model of the Python JSON values flowing through the validator and
the gateway, with enough of `json.dumps` (default separators `", "` and
`": "`, `"`/`\` escaping) to evaluate the source's substring tests on dumped
responses.
-/

/-- JSON values (numbers restricted to integers, which is all this code
produces). -/
inductive JValue where
  | null : JValue
  | bool (b : Bool) : JValue
  | num (n : Int) : JValue
  | str (s : Str) : JValue
  | arr (elems : List JValue) : JValue
  | obj (fields : List (Str × JValue)) : JValue

/-- JSON string escaping as `json.dumps` performs it for the characters this
development uses (backslash and double quote). -/
def jsonEscape (s : Str) : Str :=
  s.flatMap (fun c => if c = dqc then [bsl, dqc] else if c = bsl then [bsl, bsl] else [c])

/-- Decimal rendering of an integer. -/
def intStr (n : Int) : Str :=
  if n < 0 then '-' :: Nat.toDigits 10 n.natAbs else Nat.toDigits 10 n.natAbs

/-- Interleave a separator between rendered items. -/
def joinSep (sep : Str) : List Str → Str
  | [] => []
  | [x] => x
  | x :: y :: rest => x ++ sep ++ joinSep sep (y :: rest)

mutual

/-- Embedding of `json.dumps` with its default separators. -/
def dumps : JValue → Str
  | .null => lit "null"
  | .bool b => if b then lit "true" else lit "false"
  | .num n => intStr n
  | .str s => dqc :: jsonEscape s ++ [dqc]
  | .arr elems => '[' :: joinSep (lit ", ") (dumpsList elems) ++ [']']
  | .obj fields => '{' :: joinSep (lit ", ") (dumpsFields fields) ++ ['}']

/-- Renderings of the elements of a JSON array. -/
def dumpsList : List JValue → List Str
  | [] => []
  | v :: rest => dumps v :: dumpsList rest

/-- Renderings of the key-value pairs of a JSON object. -/
def dumpsFields : List (Str × JValue) → List Str
  | [] => []
  | (k, v) :: rest =>
    ((dqc :: jsonEscape k ++ [dqc]) ++ lit ": " ++ dumps v) :: dumpsFields rest

end

/-- Python truthiness of a JSON value (`if data and ...`). -/
def pyTruthy : JValue → Bool
  | .null => false
  | .bool b => b
  | .num n => n != 0
  | .str s => !s.isEmpty
  | .arr elems => !elems.isEmpty
  | .obj fields => !fields.isEmpty

/-- Python `needle in value`: key membership on dicts, element membership on
lists, substring on strings; `none` models the `TypeError` raised on other
operand types. -/
def pyIn (needle : Str) : JValue → Option Bool
  | .obj fields => some (fields.any (fun f => f.1 == needle))
  | .arr elems =>
    some (elems.any (fun e => match e with | .str t => t == needle | _ => false))
  | .str s => some (strIn needle s)
  | _ => none

/-!
## Token validator (`_validate_token`, discovery.py lines 118-145)

`GraphQLClient.execute` performs the network round trip and raises on any
non-2xx status, transport failure or JSON-decode failure; it is therefore
modelled as an oracle from the query text to an outcome.  The embedding also
returns the trace of queries issued, so that "no further probes run" is a
provable statement.
-/

/-- Outcome of one `client.execute(query)` call: a decoded JSON response, or
a raised exception. -/
inductive ExecOutcome where
  | ok (resp : JValue) : ExecOutcome
  | exn : ExecOutcome

/-- The introspection liveness query `{__schema{queryType{name}}}`. -/
def schemaQuery : Str := lit "\x7b__schema\x7bqueryType\x7bname\x7d\x7d\x7d"

/-- The fixed `permission_tests` probe catalog (discovery.py lines 122-131):
name and query text, in source order. -/
def permissionTests : List (Str × Str) :=
  [ (lit "unauthenticated_read_product_listings"
    , lit "\x7bproducts(first:1)\x7bedges\x7bnode\x7bid\x7d\x7d\x7d\x7d")
  , (lit "cart_create"
    , lit "mutation\x7bcartCreate(input:\x7b\x7d)\x7bcart\x7bid\x7d\x7d\x7d")
  , (lit "unauthenticated_read_content"
    , lit "\x7bshop\x7bname description\x7d\x7d")
  , (lit "unauthenticated_read_customer"
    , lit "mutation\x7bcustomerAccessTokenCreate(input:\x7bemail:\"test@example.com\",password:\"test\"\x7d)\x7bcustomerUserErrors\x7bmessage\x7d\x7d\x7d")
  , (lit "unauthenticated_read_collection_listings"
    , lit "\x7bcollections(first:1)\x7bedges\x7bnode\x7bid\x7d\x7d\x7d\x7d")
  , (lit "product_types_access"
    , lit "\x7bproductTypes(first:1)\x7bedges\x7bnode\x7d\x7d\x7d")
  , (lit "search_access"
    , lit "\x7bsearch(query:\"test\",types:PRODUCT,first:1)\x7bedges\x7bnode\x7b__typename\x7d\x7d\x7d\x7d")
  , (lit "metafields_access"
    , lit "\x7bshop\x7bmetafields(first:1)\x7bedges\x7bnode\x7bid\x7d\x7d\x7d\x7d\x7d") ]

/-- The validator's result dictionary. -/
structure ValidationResult where
  valid : Bool
  permissions : List Str
  access_denied_errors : List Str
deriving DecidableEq

/-- One iteration of the probe loop of `_validate_token`: a raised exception
(network/HTTP failure, or the `TypeError` from `"errors" not in data` on a
non-container response) lands the probe name in `access_denied_errors`; a
truthy response without an `errors` key lands it in `permissions`; any other
response contributes nothing. -/
def probeStep (ex : Str → ExecOutcome) (acc : ValidationResult × List Str)
    (t : Str × Str) : ValidationResult × List Str :=
  let res := acc.1
  let qs := acc.2 ++ [t.2]
  match ex t.2 with
  | .exn =>
    ({ res with access_denied_errors := res.access_denied_errors ++ [t.1] }, qs)
  | .ok data =>
    if pyTruthy data then
      match pyIn (lit "errors") data with
      | none =>
        ({ res with access_denied_errors := res.access_denied_errors ++ [t.1] }, qs)
      | some b =>
        if b then (res, qs)
        else ({ res with permissions := res.permissions ++ [t.1] }, qs)
    else (res, qs)

/-- Embedding of `_validate_token` (discovery.py lines 118-145), returning
the result dictionary together with the list of queries issued. -/
def validateTokenRun (ex : Str → ExecOutcome) : ValidationResult × List Str :=
  match ex schemaQuery with
  | .exn => (⟨false, [], []⟩, [schemaQuery])
  | .ok resp =>
    if strIn (lit "__schema") (dumps resp) then
      permissionTests.foldl (probeStep ex) (⟨true, [], []⟩, [schemaQuery])
    else
      (⟨false, [], []⟩, [schemaQuery])

/-- The result dictionary of `_validate_token` alone. -/
def validateToken (ex : Str → ExecOutcome) : ValidationResult :=
  (validateTokenRun ex).1

/-!
## Inline configuration-object patterns (discovery.py lines 232-239)

`window\.[A-Za-z0-9_]+\s*=\s*({[^;]+});` and the `var`/`const` variants.
After the `{`, the semicolon-free run must end with `}` immediately followed
by `;`, which pins down the single possible greedy match.
-/

/-- After the opening `{`: capture `{[^;]+});` if the semicolon-free run has
`}` as its last character, at least one character before it, and an actual
`;` after it; returns (group tail after `{`, match length after `{`). -/
def configBody (s : Str) : Option (Str × Nat) :=
  let run := s.takeWhile (fun c => c ≠ ';')
  let r1 := s.dropWhile (fun c => c ≠ ';')
  if 2 ≤ run.length ∧ run.getLastD ' ' = '}' ∧ r1 ≠ [] then
    some (run, run.length + 1)
  else none

/-- Attempt one config pattern at the current position: `lead` is the
literal before the variable name (`window.`) or the keyword requiring
following whitespace (`var`, `const`), distinguished by `needSpace`.
Returns the capture group 1 together with the whole match length minus the
two literal characters `=` and `{` (split off so that match lengths are
positive by construction). -/
def configAtCore (lead : Str) (needSpace : Bool) (s : Str) : Option (Str × Nat) :=
  match stripLit lead s with
  | none => none
  | some r0 =>
    let sp := r0.takeWhile isPySpace
    let r1 := r0.dropWhile isPySpace
    if needSpace && sp.isEmpty then none
    else
      let name := r1.takeWhile isNameChar
      let r2 := r1.dropWhile isNameChar
      if name.isEmpty then none
      else
        let sp1 := r2.takeWhile isPySpace
        let r3 := r2.dropWhile isPySpace
        match r3 with
        | '=' :: r4 =>
          let sp2 := r4.takeWhile isPySpace
          let r5 := r4.dropWhile isPySpace
          match r5 with
          | '{' :: r6 =>
            match configBody r6 with
            | some pr =>
              some ('{' :: pr.1
                , lead.length + sp.length + name.length + sp1.length + sp2.length + pr.2)
            | none => none
          | _ => none
        | _ => none

/-- Attempt one config pattern at the current position; returns the capture
group and the whole match length. -/
def configAt (lead : Str) (needSpace : Bool) (s : Str) : Option (Str × Nat) :=
  (configAtCore lead needSpace s).map (fun t => (t.1, t.2 + 2))

/-- `finditer` for one config pattern: leftmost scan, resuming after each
match, with the same structural `fuel` device as the token scanners. -/
def configScan (fuel : Nat) (lead : Str) (needSpace : Bool) (s : Str) : List Str :=
  match fuel, s with
  | 0, _ => []
  | _, [] => []
  | fuel + 1, c :: rest =>
    match configAt lead needSpace (c :: rest) with
    | some pr =>
      pr.1 :: configScan fuel lead needSpace ((c :: rest).drop pr.2)
    | none => configScan fuel lead needSpace rest

/-- The groups produced by the three `config_patterns`, in source order. -/
def configMatches (html : Str) : List Str :=
  configScan html.length (lit "window.") false html
    ++ configScan html.length (lit "var") true html
    ++ configScan html.length (lit "const") true html

/-!
## Discovery pipeline (`discover_shopify`, discovery.py lines 186-264)

The network and the BeautifulSoup document walks are oracles: the initial
`fetch_text`/`fetch_head` gather, the `ld+json` script bodies, the meta tag
contents, the `data-` attribute values, the fetched asset texts, the
`capture_network_tokens` result and the `_validate_token` results are all
supplied by a `DiscoverEnv`.  Everything computed from them — the
classifier, the canonicalizer, `_token_candidates`, the config regexes, the
set-based deduplication, the validation bookkeeping and the ranking sort —
is embedded from the source.
-/

/-- Environment of one `discover_shopify` call. -/
structure DiscoverEnv where
  initialFetch : Option (Str × List Str)
  fetchErrText : Str
  fallbackNetloc : Str
  jsonLdStrings : List (Option Str)
  metaContents : List (Option Str)
  dataAttrs : List (Str × Str)
  assetOutcomes : List (Except Str Str)
  networkCapture : Except Str (List Str)
  validate : Str → ValidationResult

/-- Python-set insertion: membership-preserving, first-occurrence order. -/
def dedupFold (l : List Str) : List Str :=
  l.foldl (fun acc x => if x ∈ acc then acc else acc ++ [x]) []

/-- Every string fed into the candidate set, in the order the source visits
its extraction passes: raw page HTML, `ld+json` script blocks, meta tag
contents, `data-` attributes, inline config objects, fetched assets, and the
network-capture pass. -/
def rawExtractions (env : DiscoverEnv) (html : Str) : List Str :=
  tokenCandidates html
    ++ (env.jsonLdStrings.flatMap (fun os =>
          match os with
          | some s => if s.isEmpty then [] else tokenCandidates s
          | none => []))
    ++ (env.metaContents.flatMap (fun oc =>
          match oc with
          | some c => if 20 < c.length then tokenCandidates c else []
          | none => []))
    ++ (env.dataAttrs.flatMap (fun a =>
          if (lit "data-").isPrefixOf a.1 && 20 < a.2.length then tokenCandidates a.2
          else []))
    ++ ((configMatches html).flatMap tokenCandidates)
    ++ (env.assetOutcomes.flatMap (fun o =>
          match o with
          | .ok t => tokenCandidates t
          | .error _ => []))
    ++ (match env.networkCapture with
        | .ok toks => toks
        | .error _ => [])

/-- The deduplicated candidate set the validation loop iterates over. -/
def candidatesOf (env : DiscoverEnv) (html : Str) : List Str :=
  dedupFold (rawExtractions env html)

/-- The non-fatal notes accumulated by the asset loop and the
network-capture pass. -/
def gatherNotes (env : DiscoverEnv) : List Str :=
  (env.assetOutcomes.flatMap (fun o =>
      match o with
      | .ok _ => []
      | .error e => [lit "asset error: " ++ e]))
    ++ (match env.networkCapture with
        | .ok _ => []
        | .error e => [lit "network token capture error: " ++ e])

/-- An entry of `tokens_ranked`: the dictionary
`{"token": tok, "permissions": validation["permissions"]}`. -/
structure RankedEntry where
  token : Str
  permissions : List Str
deriving DecidableEq

/-- The `tokens_ranked` list in validation order, before sorting. -/
def preRanked (env : DiscoverEnv) (html : Str) : List RankedEntry :=
  (candidatesOf env html).filterMap (fun t =>
    let v := env.validate t
    if v.valid then some ⟨t, v.permissions⟩ else none)

/-- Stable descending insertion by permission count: an element processed
later is placed after every already-placed element with a strictly greater
or equal count, which is the ordering contract of Python's stable
`list.sort(key=..., reverse=True)`. -/
def insDesc (x : RankedEntry) : List RankedEntry → List RankedEntry
  | [] => [x]
  | y :: ys =>
    if x.permissions.length ≤ y.permissions.length then y :: insDesc x ys
    else x :: y :: ys

/-- Embedding of `tokens_ranked.sort(key=lambda x: len(x["permissions"]),
reverse=True)`: a stable descending sort. -/
def sortRankedDesc (l : List RankedEntry) : List RankedEntry :=
  l.foldl (fun acc x => insDesc x acc) []

/-- The result dictionary of `discover_shopify`. -/
structure DiscoveryResult where
  shopify : Bool
  host : Option Str
  tokens_valid : List Str
  tokens_ranked : List RankedEntry
  tokens_invalid : List Str
  notes : List Str
deriving DecidableEq

/-- The freshly initialized result dictionary (discovery.py lines 187-194). -/
def emptyResult : DiscoveryResult :=
  ⟨false, none, [], [], [], []⟩

/-- Embedding of `discover_shopify` (discovery.py lines 186-264), returning
the result together with the trace of tokens passed to `_validate_token`.
The validation loop calls the validator once per element of the candidate
set and files the token by the `valid` flag; the embedding expresses the
same loop as comprehensions over the candidate list, reusing the oracle's
(pure) per-token result. -/
def discoverRun (env : DiscoverEnv) : DiscoveryResult × List Str :=
  match env.initialFetch with
  | none =>
    ({ emptyResult with notes := [lit "initial fetch failed: " ++ env.fetchErrText] }, [])
  | some (html, headers) =>
    if isShopify headers html then
      ({ shopify := true
       , host := some (canonicalHost html env.fallbackNetloc)
       , tokens_valid := (candidatesOf env html).filter (fun t => (env.validate t).valid)
       , tokens_ranked := sortRankedDesc (preRanked env html)
       , tokens_invalid := (candidatesOf env html).filter (fun t => !(env.validate t).valid)
       , notes := gatherNotes env }
      , candidatesOf env html)
    else (emptyResult, [])

/-!
## Guidance generation and the `shopify_discover` tool
(discovery.py lines 148-161 and 267-278)
-/

/-- A `recommended_approaches` entry. -/
structure ApproachRec where
  name : Str
  description : Str
deriving DecidableEq

/-- A `fallback_strategies` entry (`example` spelled `exampleText`, since
`example` is a Lean keyword). -/
structure FallbackRec where
  limitation : Str
  strategy : Str
  exampleText : Str
deriving DecidableEq

/-- An `operations_to_avoid` entry. -/
structure AvoidRec where
  operation : Str
  reason : Str
  suggestion : Str
deriving DecidableEq

/-- The guidance dictionary built by `generate_api_guidance`. -/
structure Guidance where
  recommended_approaches : List ApproachRec
  fallback_strategies : List FallbackRec
  operations_to_avoid : List AvoidRec
  example_queries : List (Str × Str)
deriving DecidableEq

/-- Embedding of `generate_api_guidance(permissions, access_denied)`
(discovery.py lines 148-161). -/
def generateApiGuidance (permissions access_denied : List Str) : Guidance :=
  let g0 : Guidance := ⟨[], [], [], []⟩
  let g1 :=
    if (lit "unauthenticated_read_product_listings") ∈ permissions then
      { g0 with
        recommended_approaches := g0.recommended_approaches
          ++ [⟨lit "Direct Product Queries"
              , lit "You can directly query products, variants, and collections"⟩]
        example_queries := g0.example_queries
          ++ [(lit "product_query"
              , lit "\x7b products(first: 10) \x7b edges \x7b node \x7b id title variants(first: 1) \x7b edges \x7b node \x7b id \x7d \x7d \x7d \x7d \x7d \x7d \x7d")] }
    else g0
  let g2 :=
    if (lit "cart_create") ∈ permissions then
      { g1 with
        recommended_approaches := g1.recommended_approaches
          ++ [⟨lit "Cart Operations"
              , lit "You can create carts and add items with known variant IDs"⟩]
        example_queries := g1.example_queries
          ++ [(lit "cart_create"
              , lit "mutation \x7b cartCreate( input: \x7b lines: [ \x7b quantity: 1 merchandiseId: \"gid://shopify/ProductVariant/VARIANT_ID\" \x7d ] \x7d ) \x7b cart \x7b id checkoutUrl \x7d \x7d \x7d")] }
    else g1
  let g3 :=
    if (lit "unauthenticated_read_product_listings") ∉ permissions ∧
        (lit "product_types_access") ∈ permissions then
      { g2 with
        fallback_strategies := g2.fallback_strategies
          ++ [⟨lit "No direct product listing access"
              , lit "Use productTypes + search query approach"
              , lit "\x7b productTypes(first: 10) \x7b edges \x7b node \x7d \x7d \x7d \x7b search(query: \"TypeName\", types: [PRODUCT], first: 3) \x7b edges \x7b node \x7b ... on Product \x7b id title variants(first: 1) \x7b edges \x7b node \x7b id \x7d \x7d \x7d \x7d \x7d \x7d \x7d \x7d"⟩] }
    else g2
  { g3 with
    operations_to_avoid := g3.operations_to_avoid
      ++ access_denied.filterMap (fun denied =>
          if denied = lit "unauthenticated_read_product_listings" then
            some ⟨lit "Direct product queries"
                 , lit "Token lacks product listing permissions"
                 , lit "Try using search with product types instead"⟩
          else none) }

/-- A per-token `api_guidance` entry of `shopify_discover`. -/
structure TokenGuidance where
  token : Str
  guidance : Guidance
deriving DecidableEq

/-- The serialized output of the `shopify_discover` tool: the discovery
result plus the `api_guidance` key, which is present only when
`tokens_valid` is non-empty. -/
structure ShopifyDiscoverOut where
  result : DiscoveryResult
  api_guidance : Option (List TokenGuidance)
deriving DecidableEq

/-- Embedding of the `shopify_discover` tool (discovery.py lines 267-278).
Each entry of `tokens_ranked` carries only the `token` and `permissions`
keys, so `token_info.get("access_denied_errors", [])` always yields the
default `[]`. -/
def shopifyDiscover (env : DiscoverEnv) : ShopifyDiscoverOut :=
  let r := (discoverRun env).1
  if !r.tokens_valid.isEmpty then
    ⟨r, some (r.tokens_ranked.map (fun ti =>
        ⟨ti.token, generateApiGuidance ti.permissions []⟩))⟩
  else ⟨r, none⟩

/-!
## Query execution gateway, `execute` mode

Two implementations exist in the repository.  The package module
(`shopify_storefront_mcp_server/main.py` lines 30-37) calls
`GraphQLClient.execute`, which raises on any non-2xx status via
`raise_for_status`, and serializes `str(exc)` of whatever was raised.  The
legacy module (`shopify_storefront_mcp_server.py` lines 916-937) catches
`httpx.HTTPStatusError` separately and maps status 430 to the message
`"Shopify Security Rejection"` and any other status to `"HTTP {code}"`.
-/

/-- The structured error object `{"errors": [{"message": msg}]}`. -/
def errObj (msg : Str) : JValue :=
  JValue.obj [(lit "errors", JValue.arr [JValue.obj [(lit "message", JValue.str msg)]])]

/-- Outcome of `client.execute(query, variables)` in the package module: a
decoded JSON body, or a raised exception carrying its `str(exc)` rendering
(for a non-2xx upstream status this is the generic text httpx attaches to
the `HTTPStatusError` raised by `raise_for_status`). -/
inductive ClientExecOutcome where
  | ok (data : JValue) : ClientExecOutcome
  | raised (rendered : Str) : ClientExecOutcome

/-- Embedding of the `mode == "execute"` branch of the package tool
`shopify_storefront_graphql` (main.py lines 30-37): the JSON string returned
to the caller. -/
def mainExecuteMode (o : ClientExecOutcome) : Str :=
  match o with
  | .ok data => dumps data
  | .raised rendered => dumps (errObj rendered)

/-- Outcome of the raw `client.post` of the legacy module: a completed HTTP
exchange (status code and body text), or a transport-level exception with
its rendering. -/
inductive UpstreamOutcome where
  | resp (status : Nat) (text : Str) : UpstreamOutcome
  | netExn (rendered : Str) : UpstreamOutcome

/-- httpx `Response.raise_for_status` raises unless the status is 2xx. -/
def is2xx (status : Nat) : Bool := 200 ≤ status && status ≤ 299

/-- Embedding of the `mode == "execute"` branch of the legacy tool
`shopify_storefront_graphql` (shopify_storefront_mcp_server.py lines
916-937): on success the body text is returned verbatim; an
`httpx.HTTPStatusError` is mapped to a structured error whose message is
`"Shopify Security Rejection"` for status 430 and `"HTTP {code}"`
otherwise; any other exception is mapped to `"Unexpected error: {exc}"`. -/
def legacyExecuteMode (u : UpstreamOutcome) : Str :=
  match u with
  | .resp status text =>
    if is2xx status then text
    else
      dumps (errObj
        (if status == 430 then lit "Shopify Security Rejection"
         else lit "HTTP " ++ Nat.toDigits 10 status))
  | .netExn rendered => dumps (errObj (lit "Unexpected error: " ++ rendered))

/-!
## Theorems: token validator
-/

/-- C3.  If the liveness probe does not succeed with the `__schema` marker in
the dumped response — it raises, or the response lacks the marker — then
`_validate_token` returns `valid = false` with empty permission and denial
sets, and the only query ever issued is the introspection probe. -/
theorem validateToken_liveness_gate (ex : Str → ExecOutcome)
    (h : ∀ r, ex schemaQuery = ExecOutcome.ok r →
      strIn (lit "__schema") (dumps r) = false) :
    validateTokenRun ex = (⟨false, [], []⟩, [schemaQuery]) := by
  unfold validateTokenRun
  cases hq : ex schemaQuery with
  | exn => rfl
  | ok r =>
    simp [h r hq]

/-- Witness for C3: an oracle whose liveness probe raises. -/
theorem validateToken_liveness_gate_witness :
    validateTokenRun (fun _ => ExecOutcome.exn) = (⟨false, [], []⟩, [schemaQuery]) :=
  validateToken_liveness_gate (fun _ => ExecOutcome.exn) (fun _ hr => nomatch hr)

/-- Liveness response used by the C1 evaluation: HTTP 200 with the schema
marker. -/
def liveResp : JValue :=
  JValue.obj [(lit "data", JValue.obj [(lit "__schema", JValue.obj [(lit "queryType", JValue.null)])])]

/-- Oracle whose liveness probe succeeds while every permission probe raises
(network failure / non-2xx status). -/
def execAllProbesRaise : Str → ExecOutcome := fun q =>
  if q == schemaQuery then ExecOutcome.ok liveResp else ExecOutcome.exn

/-- Oracle whose liveness probe succeeds while every permission probe
returns HTTP 200 with an explicit `Access denied` error payload. -/
def execAllProbesDenied : Str → ExecOutcome := fun q =>
  if q == schemaQuery then ExecOutcome.ok liveResp
  else
    ExecOutcome.ok
      (JValue.obj
        [(lit "errors"
         , JValue.arr [JValue.obj [(lit "message", JValue.str (lit "Access denied"))]])])

/-- C1 (bug evaluation).  In `discovery.py`'s `_validate_token` a probe whose
request raises is filed under `access_denied_errors` (all eight names below),
and a probe answered with an explicit access-denial error payload is filed
under neither set — the opposite of the spec's classification, which the
legacy `shopify_storefront_mcp_server.py` implementation (lines 275-293)
realizes by matching the `Access denied` substring in the payload. -/
theorem validateToken_probe_misclassification :
    (validateToken execAllProbesRaise).access_denied_errors
        = permissionTests.map (fun t => t.1)
      ∧ (validateToken execAllProbesRaise).permissions = []
      ∧ (validateToken execAllProbesRaise).valid = true
      ∧ (validateToken execAllProbesDenied).access_denied_errors = []
      ∧ (validateToken execAllProbesDenied).permissions = []
      ∧ (validateToken execAllProbesDenied).valid = true := by
  refine ⟨?_, ?_, ?_, ?_, ?_, ?_⟩ <;> rfl

/-!
## Theorems: classifier and discovery negative path
-/

/-- C2.  When the initial fetch succeeds but the classifier rejects the
page, `discover_shopify` returns the untouched initial result — platform
match false, no canonical host, all token lists (and notes) empty — and no
token is ever validated. -/
theorem discover_nonmatch_empty (env : DiscoverEnv) (html : Str) (headers : List Str)
    (h1 : env.initialFetch = some (html, headers))
    (h2 : isShopify headers html = false) :
    discoverRun env = (emptyResult, []) := by
  unfold discoverRun
  rw [h1]
  simp [h2]

/-- Environment of the C2 witness: a fetched page with empty headers and
marker-free HTML. -/
def nonmatchEnv : DiscoverEnv :=
  { initialFetch := some (lit "<html><body>plain page</body></html>", [])
  , fetchErrText := []
  , fallbackNetloc := lit "example.com"
  , jsonLdStrings := []
  , metaContents := []
  , dataAttrs := []
  , assetOutcomes := []
  , networkCapture := Except.ok []
  , validate := fun _ => ⟨false, [], []⟩ }

/-- Witness for C2. -/
theorem discover_nonmatch_empty_witness :
    discoverRun nonmatchEnv = (emptyResult, []) :=
  discover_nonmatch_empty nonmatchEnv (lit "<html><body>plain page</body></html>") []
    rfl rfl

/-- C6 (bug evaluation).  The prefixes in `HDR_PREFIXES` are spelled with
the non-breaking hyphen U+2011, so the ASCII header name `x-shopify-stage`
does not activate the classifier on its own, contrary to the spec; the HTML
signal class works as described (Scenario A). -/
theorem isShopify_header_prefix_mismatch :
    isShopify [lit "x-shopify-stage"] [] = false
      ∧ isShopify [] (lit "window.Shopify.theme = \x7b\x7d") = true
      ∧ isShopify [lit "x" ++ [nbHyphen] ++ lit "shopify-stage"] [] = true := by
  refine ⟨?_, ?_, ?_⟩ <;> rfl

/-!
## Theorems: query execution gateway
-/

/-- C8 (bug evaluation).  The package module's `execute` mode answers every
raised failure — including the `HTTPStatusError` that `raise_for_status`
raises for a non-2xx status such as 430 — with a structured error object
whose message is exactly the exception's own rendering, so no
security-rejection wording is ever added; the legacy module's `execute`
mode maps status 430 to the distinguishing message
`Shopify Security Rejection` and other non-2xx statuses to a generic
`HTTP {code}` message. -/
theorem executeMode_430_message :
    (∀ rendered : Str,
        mainExecuteMode (ClientExecOutcome.raised rendered) = dumps (errObj rendered))
      ∧ legacyExecuteMode (UpstreamOutcome.resp 430 [])
          = dumps (errObj (lit "Shopify Security Rejection"))
      ∧ legacyExecuteMode (UpstreamOutcome.resp 500 [])
          = dumps (errObj (lit "HTTP " ++ Nat.toDigits 10 500)) := by
  refine ⟨fun rendered => rfl, rfl, rfl⟩

/-!
## Theorems: guidance emitted by `shopify_discover`
-/

theorem generateApiGuidance_avoid_nil (permissions : List Str) :
    (generateApiGuidance permissions []).operations_to_avoid = [] := by
  unfold generateApiGuidance
  split_ifs <;> rfl

/-- C10.  Every `api_guidance` entry emitted by `shopify_discover` is built
from the empty denied-operations default (the `tokens_ranked` entries carry
only `token` and `permissions`), so its `operations_to_avoid` list is
empty. -/
theorem shopifyDiscover_avoid_empty (env : DiscoverEnv) (gs : List TokenGuidance)
    (g : TokenGuidance) (h1 : (shopifyDiscover env).api_guidance = some gs)
    (h2 : g ∈ gs) : g.guidance.operations_to_avoid = [] := by
  unfold shopifyDiscover at h1
  by_cases he : ((discoverRun env).1.tokens_valid).isEmpty
  · simp [he] at h1
  · simp [he] at h1
    subst h1
    obtain ⟨ti, _, hg⟩ := List.mem_map.mp h2
    rw [← hg]
    exact generateApiGuidance_avoid_nil ti.permissions

/-- Environment of the C10 witness: a Shopify-classified page carrying one
context-gated candidate token that validates successfully. -/
def guidanceEnv : DiscoverEnv :=
  { initialFetch :=
      some (lit "window.Shopify.theme = x token 0123456789abcdef0123456789abcdef y", [])
  , fetchErrText := []
  , fallbackNetloc := lit "shop.example.com"
  , jsonLdStrings := []
  , metaContents := []
  , dataAttrs := []
  , assetOutcomes := []
  , networkCapture := Except.ok []
  , validate := fun _ => ⟨true, [lit "cart_create"], []⟩ }

/-- Witness for C10: the guidance entry actually emitted for the validated
token has an empty `operations_to_avoid`. -/
theorem shopifyDiscover_avoid_empty_witness :
    (TokenGuidance.mk (lit "0123456789abcdef0123456789abcdef")
        (generateApiGuidance [lit "cart_create"] [])).guidance.operations_to_avoid = [] :=
  shopifyDiscover_avoid_empty guidanceEnv
    [⟨lit "0123456789abcdef0123456789abcdef", generateApiGuidance [lit "cart_create"] []⟩]
    (TokenGuidance.mk (lit "0123456789abcdef0123456789abcdef")
      (generateApiGuidance [lit "cart_create"] []))
    (by rfl) (by simp)

/-!
## Theorems: candidate extraction context gate
-/

theorem mem_boolSingleton {α : Type} (b : Bool) (g s : α) :
    s ∈ (if b then [g] else []) ↔ b = true ∧ g = s := by
  cases b <;> simp
  exact eq_comm

theorem mem_candidateEmits (lw : Str) (m : TokenMatch) (s : Str) :
    s ∈ candidateEmits lw m ↔
      m.group = s
        ∧ (contextHit (windowOf lw m) = true ∨ initHit (windowOf lw m) = true) := by
  unfold candidateEmits initEmits initHit
  simp only [List.mem_append, mem_boolSingleton, Bool.or_eq_true]
  by_cases hg : m.group = s
  · simp only [hg, and_true, true_and]
  · simp only [hg, and_false, false_and, or_false, false_or, iff_false]

/-- C4.  A string is produced by `_token_candidates` iff some token-pattern
match has it as its group and the ±100-character window of the lower-cased
text around the match contains a credential-context keyword or matches one
of the client-initialization call patterns. -/
theorem tokenCandidates_context_gate (text s : Str) :
    s ∈ tokenCandidates text ↔
      ∃ m ∈ tokenMatches text,
        m.group = s
          ∧ (contextHit (windowOf (pyLower text) m) = true
              ∨ initHit (windowOf (pyLower text) m) = true) := by
  unfold tokenCandidates
  rw [List.mem_flatMap]
  constructor
  · rintro ⟨m, hm, hs⟩
    exact ⟨m, hm, (mem_candidateEmits (pyLower text) m s).mp hs⟩
  · rintro ⟨m, hm, hs⟩
    exact ⟨m, hm, (mem_candidateEmits (pyLower text) m s).mpr hs⟩

/-!
## Theorems: host canonicalizer
-/

/-- C5.  `_canonical_host` coincides with the specification's strict
first-match-wins priority chain (structured myshopify patterns, then the
`Shopify.shop` assignment suffix-normalized, then the loose scan, then the
fallback host), and its value is always lower-cased. -/
theorem canonicalHost_priority_lowercase (html fallback : Str) :
    canonicalHost html fallback = canonicalHostSpec html fallback
      ∧ pyLower (canonicalHost html fallback) = canonicalHost html fallback := by
  constructor
  · unfold canonicalHost canonicalHostSpec
    simp only [Option.orElse]
    cases myshopP1Search html <;>
      cases myshopP2Search none html <;>
        cases myshopP3Search html <;>
          cases shopAssignSearch html <;>
            cases looseMyshopSearch html <;>
              simp [apply_ite pyLower]
  · unfold canonicalHost
    cases myshopP1Search html <;>
      cases myshopP2Search none html <;>
        cases myshopP3Search html <;>
          cases shopAssignSearch html <;>
            cases looseMyshopSearch html <;>
              simp [pyLower_idem, apply_ite pyLower]

/-!
## Theorems: capability ranking
-/

theorem mem_insDesc (x z : RankedEntry) (l : List RankedEntry) :
    z ∈ insDesc x l ↔ z = x ∨ z ∈ l := by
  induction l with
  | nil => simp [insDesc]
  | cons y ys ih =>
    unfold insDesc
    split_ifs
    · simp only [List.mem_cons, ih]
      tauto
    · simp only [List.mem_cons]

theorem insDesc_pairwise (x : RankedEntry) (l : List RankedEntry)
    (h : l.Pairwise (fun a b => b.permissions.length ≤ a.permissions.length)) :
    (insDesc x l).Pairwise (fun a b => b.permissions.length ≤ a.permissions.length) := by
  induction l with
  | nil => simp [insDesc]
  | cons y ys ih =>
    rw [List.pairwise_cons] at h
    obtain ⟨hy, hys⟩ := h
    unfold insDesc
    split_ifs with hc
    · rw [List.pairwise_cons]
      refine ⟨?_, ih hys⟩
      intro z hz
      rcases (mem_insDesc x z ys).mp hz with hzx | hzys
      · rw [hzx]
        exact hc
      · exact hy z hzys
    · rw [List.pairwise_cons]
      refine ⟨?_, List.pairwise_cons.mpr ⟨hy, hys⟩⟩
      intro z hz
      rcases List.mem_cons.mp hz with hzy | hzys
      · subst hzy
        omega
      · exact (hy z hzys).trans (by omega)

theorem insDesc_filter_ne (x : RankedEntry) (l : List RankedEntry) (n : Nat)
    (hx : x.permissions.length ≠ n) :
    (insDesc x l).filter (fun e => e.permissions.length == n)
      = l.filter (fun e => e.permissions.length == n) := by
  induction l with
  | nil => simp [insDesc, hx]
  | cons y ys ih =>
    unfold insDesc
    split_ifs
    · simp only [List.filter_cons]
      rw [ih]
    · simp only [List.filter_cons]
      have hfx : (x.permissions.length == n) = false := by
        simp [hx]
      rw [hfx]
      simp

theorem filter_eq_nil_of_lt (l : List RankedEntry) (y : RankedEntry) (n : Nat)
    (hsort : (y :: l).Pairwise (fun a b => b.permissions.length ≤ a.permissions.length))
    (hy : y.permissions.length < n) :
    (y :: l).filter (fun e => e.permissions.length == n) = [] := by
  rw [List.filter_eq_nil_iff]
  intro z hz
  rcases List.mem_cons.mp hz with hzy | hzl
  · subst hzy
    simp only [beq_iff_eq]
    omega
  · rw [List.pairwise_cons] at hsort
    have := hsort.1 z hzl
    simp only [beq_iff_eq]
    omega

theorem insDesc_filter_eq (x : RankedEntry) (l : List RankedEntry) (n : Nat)
    (hsort : l.Pairwise (fun a b => b.permissions.length ≤ a.permissions.length))
    (hx : x.permissions.length = n) :
    (insDesc x l).filter (fun e => e.permissions.length == n)
      = l.filter (fun e => e.permissions.length == n) ++ [x] := by
  induction l with
  | nil => simp [insDesc, hx]
  | cons y ys ih =>
    unfold insDesc
    split_ifs with hc
    · rw [List.pairwise_cons] at hsort
      simp only [List.filter_cons]
      rw [ih hsort.2]
      split <;> simp
    · have hlt : y.permissions.length < n := by omega
      have h2 := filter_eq_nil_of_lt ys y n hsort hlt
      simp only [List.filter_cons] at h2 ⊢
      have hfy : (y.permissions.length == n) = false := by
        simp only [beq_eq_false_iff_ne, ne_eq]
        omega
      rw [hfy] at h2
      simp only [Bool.false_eq_true, if_false] at h2
      have hfx : (x.permissions.length == n) = true := by
        simp [hx]
      rw [hfx, hfy]
      simp only [if_true, Bool.false_eq_true, if_false, h2]
      simp

theorem sortFold_pairwise_filter (l : List RankedEntry) (acc : List RankedEntry)
    (hacc : acc.Pairwise (fun a b => b.permissions.length ≤ a.permissions.length)) :
    ((l.foldl (fun a x => insDesc x a) acc).Pairwise
        (fun a b => b.permissions.length ≤ a.permissions.length))
      ∧ ∀ n, (l.foldl (fun a x => insDesc x a) acc).filter
              (fun e => e.permissions.length == n)
          = acc.filter (fun e => e.permissions.length == n)
              ++ l.filter (fun e => e.permissions.length == n) := by
  induction l generalizing acc with
  | nil => simp [hacc]
  | cons x xs ih =>
    simp only [List.foldl_cons]
    obtain ⟨p1, p2⟩ := ih (insDesc x acc) (insDesc_pairwise x acc hacc)
    refine ⟨p1, ?_⟩
    intro n
    rw [p2 n]
    by_cases hx : x.permissions.length = n
    · rw [insDesc_filter_eq x acc n hacc hx]
      simp only [List.filter_cons]
      have hfx : (x.permissions.length == n) = true := by
        simp [hx]
      rw [hfx]
      simp
    · rw [insDesc_filter_ne x acc n hx]
      simp only [List.filter_cons]
      have hfx : (x.permissions.length == n) = false := by
        simp [hx]
      rw [hfx]
      simp

/-- C7.  On every Shopify-classified page, the ranked token list is ordered
by descending permission count, and for every count the sublist of entries
with that count equals the corresponding sublist of the pre-sort
(validation-order) list: ties retain their encounter order. -/
theorem discover_ranking_stable (env : DiscoverEnv) (html : Str) (headers : List Str)
    (h1 : env.initialFetch = some (html, headers))
    (h2 : isShopify headers html = true) :
    ((discoverRun env).1.tokens_ranked.Pairwise
        (fun a b => b.permissions.length ≤ a.permissions.length))
      ∧ ∀ n, (discoverRun env).1.tokens_ranked.filter
              (fun e => e.permissions.length == n)
          = (preRanked env html).filter (fun e => e.permissions.length == n) := by
  have hr : (discoverRun env).1.tokens_ranked = sortRankedDesc (preRanked env html) := by
    unfold discoverRun
    rw [h1]
    simp [h2]
  rw [hr]
  unfold sortRankedDesc
  obtain ⟨p1, p2⟩ := sortFold_pairwise_filter (preRanked env html) [] (by simp)
  refine ⟨p1, fun n => ?_⟩
  rw [p2 n]
  simp

/-- The HTML of the C7 witness: two equally-capable candidate tokens in
encounter order. -/
def rankHtml : Str :=
  lit "token 0123456789abcdef0123456789abcdef then token fedcba9876543210fedcba9876543210 window.Shopify x"

/-- Environment of the C7 witness. -/
def rankEnv : DiscoverEnv :=
  { initialFetch := some (rankHtml, [])
  , fetchErrText := []
  , fallbackNetloc := lit "shop.example.com"
  , jsonLdStrings := []
  , metaContents := []
  , dataAttrs := []
  , assetOutcomes := []
  , networkCapture := Except.ok []
  , validate := fun _ => ⟨true, [lit "unauthenticated_read_content"], []⟩ }

/-- Witness for C7, instantiated at permission count 1. -/
theorem discover_ranking_stable_witness :
    ((discoverRun rankEnv).1.tokens_ranked.Pairwise
        (fun a b => b.permissions.length ≤ a.permissions.length))
      ∧ (discoverRun rankEnv).1.tokens_ranked.filter
            (fun e => e.permissions.length == 1)
          = (preRanked rankEnv rankHtml).filter (fun e => e.permissions.length == 1) :=
  ⟨(discover_ranking_stable rankEnv rankHtml [] rfl rfl).1,
   (discover_ranking_stable rankEnv rankHtml [] rfl rfl).2 1⟩

/-!
## Theorems: candidate deduplication
-/

theorem dedupFoldAux_nodup_mem (l : List Str) (acc : List Str) (hacc : acc.Nodup) :
    ((l.foldl (fun a x => if x ∈ a then a else a ++ [x]) acc).Nodup)
      ∧ ∀ x, x ∈ l.foldl (fun a x => if x ∈ a then a else a ++ [x]) acc
          ↔ x ∈ acc ∨ x ∈ l := by
  induction l generalizing acc with
  | nil => simp [hacc]
  | cons a t ih =>
    simp only [List.foldl_cons]
    by_cases ha : a ∈ acc
    · rw [if_pos ha]
      obtain ⟨n1, n2⟩ := ih acc hacc
      refine ⟨n1, fun x => ?_⟩
      rw [n2 x]
      simp only [List.mem_cons]
      constructor
      · tauto
      · rintro (hx | hx | hx)
        · tauto
        · subst hx
          tauto
        · tauto
    · rw [if_neg ha]
      have hacc2 : (acc ++ [a]).Nodup := by
        simp [List.nodup_append, hacc, ha]
      obtain ⟨n1, n2⟩ := ih (acc ++ [a]) hacc2
      refine ⟨n1, fun x => ?_⟩
      rw [n2 x]
      simp only [List.mem_append, List.mem_singleton, List.mem_cons]
      tauto

theorem strCount_eq_one_of_nodup_mem (l : List Str) (t : Str) (hnd : l.Nodup)
    (h : t ∈ l) : l.count t = 1 := by
  induction l with
  | nil => cases h
  | cons a as ih =>
    obtain ⟨hna, hnas⟩ := List.nodup_cons.mp hnd
    rcases List.mem_cons.mp h with rfl | hmem
    · have hz : as.count t = 0 := List.count_eq_zero.mpr hna
      simp [List.count_cons, hz]
    · have hne : t ≠ a := by
        intro he
        subst he
        exact hna hmem
      simp [List.count_cons, ih hnas hmem, hne]

/-- C9.  On every Shopify-classified page, any token string extracted from
any of the scanning passes is passed to `_validate_token` exactly once: the
validation trace counts it once, however many extraction sites produced
it. -/
theorem discover_validates_once (env : DiscoverEnv) (html : Str) (headers : List Str)
    (t : Str) (h1 : env.initialFetch = some (html, headers))
    (h2 : isShopify headers html = true)
    (h3 : t ∈ rawExtractions env html) :
    ((discoverRun env).2).count t = 1 := by
  have htr : (discoverRun env).2 = candidatesOf env html := by
    unfold discoverRun
    rw [h1]
    simp [h2]
  rw [htr]
  unfold candidatesOf dedupFold
  obtain ⟨hnd, hmem⟩ := dedupFoldAux_nodup_mem (rawExtractions env html) [] (by simp)
  exact strCount_eq_one_of_nodup_mem _ t hnd ((hmem t).mpr (Or.inr h3))

/-- The HTML of the C9 witness. -/
def dedupHtml : Str :=
  lit "window.Shopify token 0123456789abcdef0123456789abcdef page"

/-- Environment of the C9 witness: the same token string appears in the raw
HTML, in a structured-data block and in a `data-` attribute. -/
def dedupEnv : DiscoverEnv :=
  { initialFetch := some (dedupHtml, [])
  , fetchErrText := []
  , fallbackNetloc := lit "shop.example.com"
  , jsonLdStrings :=
      [some (lit "apikey 0123456789abcdef0123456789abcdef config")]
  , metaContents := []
  , dataAttrs :=
      [(lit "data-config", lit "graphql 0123456789abcdef0123456789abcdef pad")]
  , assetOutcomes := []
  , networkCapture := Except.ok []
  , validate := fun _ => ⟨false, [], []⟩ }

/-- Witness for C9: the token extracted from three distinct locations is
validated exactly once. -/
theorem discover_validates_once_witness :
    ((discoverRun dedupEnv).2).count (lit "0123456789abcdef0123456789abcdef") = 1 :=
  discover_validates_once dedupEnv dedupHtml []
    (lit "0123456789abcdef0123456789abcdef") rfl rfl (by decide)
